import Mathlib

/-!
Slicer: volume property node and subject hierarchy plugin defaults.

A shallow embedding of

* `Modules/Loadable/VolumeRendering/MRML/vtkMRMLVolumePropertyNode.h`
  (the stored attributes, their initial values, the clamped component count and the
  transfer-function string format documented there), and
* `Modules/Loadable/SubjectHierarchy/Widgets/qSlicerSubjectHierarchyAbstractPlugin.cxx`
  (the default implementations of the plugin operations).

Definitions come first, the theorems about them follow.
-/

namespace Slicer

/-! ## Numbers -/

/-- A C++ `double` that holds a finite value. The embedded code only stores, copies and
compares such values, so a finite double is represented by the rational number it denotes. -/
abbrev Double := ℚ

/-! ## Transfer functions and their string form -/

/-- Modelled from the spec: `vtkPiecewiseFunction` (a VTK type, not declared in this
repository) as "an ordered sequence of (x, value) tuples": the control points in
increasing order of x. -/
abbrev vtkPiecewiseFunction := List (Double × Double)

/-- Modelled from the spec: `vtkColorTransferFunction` (a VTK type) as "an ordered sequence
of (x, r, g, b) tuples". -/
abbrev vtkColorTransferFunction := List (Double × Double × Double × Double)

/-- Modelled from the spec: the transfer-function string, "whitespace-separated ASCII
doubles", as the sequence of numbers its tokens denote. How one double is printed and read
back as decimal text is outside the model. -/
abbrev TransferString := List Double

/-- Modelled from the spec: `vtkPiecewiseFunction::AddPoint(x, value)`; the sequence stays
ordered by x and a point added at an x that is already present replaces the old one. -/
def AddPoint : vtkPiecewiseFunction → Double → Double → vtkPiecewiseFunction
  | [], x, y => [(x, y)]
  | p :: rest, x, y =>
    if x < p.1 then (x, y) :: p :: rest
    else if x = p.1 then (x, y) :: rest
    else p :: AddPoint rest x y

/-- Modelled from the spec: `vtkColorTransferFunction::AddRGBPoint(x, r, g, b)`; the
sequence stays ordered by x and a point added at an x that is already present replaces the
old one. -/
def AddRGBPoint : vtkColorTransferFunction → Double → Double → Double → Double →
    vtkColorTransferFunction
  | [], x, r, g, b => [(x, r, g, b)]
  | p :: rest, x, r, g, b =>
    if x < p.1 then (x, r, g, b) :: p :: rest
    else if x = p.1 then (x, r, g, b) :: rest
    else p :: AddRGBPoint rest x r g b

/-- Modelled from the spec: `RemoveAllPoints` of the two VTK function types; no control
point is left. -/
def RemoveAllPoints {β : Type} (_function : List β) : List β := []

/-- The values of a piecewise function laid out as `x1 opacity1 ... xN opacityN`. -/
def piecewiseData : vtkPiecewiseFunction → List Double
  | [] => []
  | p :: rest => p.1 :: p.2 :: piecewiseData rest

/-- The values of a color transfer function laid out as `x1 r1 g1 b1 ... xN rN gN bN`. -/
def colorData : vtkColorTransferFunction → List Double
  | [] => []
  | p :: rest => p.1 :: p.2.1 :: p.2.2.1 :: p.2.2.2 :: colorData rest

/-- Modelled from the spec: `vtkMRMLVolumePropertyNode::GetPiecewiseFunctionString`
(declared in the header, body not part of the sources at hand). Format
`<numberOfPoints> <x1> <opacity1> … <xN> <opacityN>`. -/
def GetPiecewiseFunctionString (function : vtkPiecewiseFunction) : TransferString :=
  (function.length : Double) :: piecewiseData function

/-- Modelled from the spec: `vtkMRMLVolumePropertyNode::GetColorTransferFunctionString`
(declared in the header, body not part of the sources at hand). Format
`<numberOfPoints> <x1> <r1> <g1> <b1> …`. -/
def GetColorTransferFunctionString (function : vtkColorTransferFunction) : TransferString :=
  (function.length : Double) :: colorData function

/-- The number of points announced by the first token of a transfer-function string, read
as an integer; a string without tokens announces no point. -/
def numberOfPoints : TransferString → Nat
  | [] => 0
  | n :: _ => Int.toNat ⌊n⌋

/-- Reads up to `n` (x, opacity) pairs from the tokens that follow the header. -/
def readPiecewiseNodes : Nat → List Double → List (Double × Double)
  | n + 1, x :: y :: rest => (x, y) :: readPiecewiseNodes n rest
  | _, _ => []

/-- Reads up to `n` (x, r, g, b) tuples from the tokens that follow the header. -/
def readColorNodes : Nat → List Double → List (Double × Double × Double × Double)
  | n + 1, x :: r :: g :: b :: rest => (x, r, g, b) :: readColorNodes n rest
  | _, _ => []

/-- Modelled from the spec: `vtkMRMLVolumePropertyNode::GetPiecewiseFunctionFromString`
(declared in the header, body not part of the sources at hand): "Put parameters described
in a string into an existing vtkPiecewiseFunction". The points `result` held before are
dropped and the points read from the string are added one by one. -/
def GetPiecewiseFunctionFromString (str : TransferString) (result : vtkPiecewiseFunction) :
    vtkPiecewiseFunction :=
  (readPiecewiseNodes (numberOfPoints str) str.tail).foldl
    (fun f p => AddPoint f p.1 p.2) (RemoveAllPoints result)

/-- Modelled from the spec: `vtkMRMLVolumePropertyNode::GetColorTransferFunctionFromString`
(declared in the header, body not part of the sources at hand): "Put parameters described
in a string into an existing vtkColorTransferFunction". The points `result` held before are
dropped and the points read from the string are added one by one. -/
def GetColorTransferFunctionFromString (str : TransferString)
    (result : vtkColorTransferFunction) : vtkColorTransferFunction :=
  (readColorNodes (numberOfPoints str) str.tail).foldl
    (fun f p => AddRGBPoint f p.1 p.2.1 p.2.2.1 p.2.2.2) (RemoveAllPoints result)

/-- The control points have strictly increasing x. -/
def StrictlyIncreasing {β : Type} (f : List (Double × β)) : Prop :=
  List.Pairwise (fun p q => p.1 < q.1) f

/-! ## The volume property node -/

/-- The attributes of `vtkMRMLVolumePropertyNode` declared in the header that the
properties below are about. -/
structure vtkMRMLVolumePropertyNode where
  /-- Elements `{xMin, xMax}`. -/
  EffectiveRange : Double × Double
  NumberOfIndependentComponents : Int
  deriving DecidableEq, Repr

/-- The freshly constructed node: `EffectiveRange[2]{ 0.0, -1.0 }` and
`NumberOfIndependentComponents{ 1 }` (member initialisers of the header). -/
def vtkMRMLVolumePropertyNode.New : vtkMRMLVolumePropertyNode :=
  { EffectiveRange := (0, -1), NumberOfIndependentComponents := 1 }

/-- Modelled from the spec: `vtkSetClampMacro` is defined by the VTK library; the value it
stores for an argument is `_arg < min ? min : (_arg > max ? max : _arg)`. -/
def vtkClamp (arg min max : Int) : Int :=
  if arg < min then min else if arg > max then max else arg

/-- `vtkSetClampMacro(NumberOfIndependentComponents, int, 1, VTK_MAX_VRCOMP)`: the member is
assigned the clamped argument when it differs from the current value. `VTK_MAX_VRCOMP` is a
constant of the VTK library and is taken as a parameter. -/
def SetNumberOfIndependentComponents (VTK_MAX_VRCOMP : Int) (node : vtkMRMLVolumePropertyNode)
    (arg : Int) : vtkMRMLVolumePropertyNode :=
  if node.NumberOfIndependentComponents ≠ vtkClamp arg 1 VTK_MAX_VRCOMP then
    { node with NumberOfIndependentComponents := vtkClamp arg 1 VTK_MAX_VRCOMP }
  else node

/-- `vtkGetMacro(NumberOfIndependentComponents, int)`. -/
def GetNumberOfIndependentComponents (node : vtkMRMLVolumePropertyNode) : Int :=
  node.NumberOfIndependentComponents

/-- The node after a sequence of `SetNumberOfIndependentComponents` calls on a freshly
constructed node. -/
def afterSetComponentCalls (VTK_MAX_VRCOMP : Int) (args : List Int) :
    vtkMRMLVolumePropertyNode :=
  args.foldl (SetNumberOfIndependentComponents VTK_MAX_VRCOMP) vtkMRMLVolumePropertyNode.New

/-- The range invariant `EffectiveRange[0] <= EffectiveRange[1]`. -/
def EffectiveRangeOrdered (node : vtkMRMLVolumePropertyNode) : Prop :=
  node.EffectiveRange.1 ≤ node.EffectiveRange.2

instance (node : vtkMRMLVolumePropertyNode) : Decidable (EffectiveRangeOrdered node) :=
  inferInstanceAs (Decidable (_ ≤ _))

/-- A range `{xMin, xMax}` that satisfies the invariant "range min ≤ max" of the data
model. -/
abbrev OrderedRange := { range : Double × Double // range.1 ≤ range.2 }

/-- Modelled from the spec: `vtkMRMLVolumePropertyNode::SetEffectiveRange(min, max)`
(declared in the header as "Set effective range", body not part of the sources at hand).
The data model gives the stored range the invariant "range min ≤ max": arguments with
`min <= max` become the stored range; what the call stores for `min > max` is not said, so
it is the parameter `unordered`, any rule that yields a range within the invariant. -/
def SetEffectiveRange
    (unordered : vtkMRMLVolumePropertyNode → Double → Double → OrderedRange)
    (node : vtkMRMLVolumePropertyNode) (min max : Double) : vtkMRMLVolumePropertyNode :=
  if min ≤ max then { node with EffectiveRange := (min, max) }
  else { node with EffectiveRange := (unordered node min max).1 }

/-- One rule for `min > max`, used to evaluate `SetEffectiveRange`: the two arguments are
stored in increasing order. -/
def storeInIncreasingOrder (_node : vtkMRMLVolumePropertyNode) (a b : Double) :
    OrderedRange :=
  ⟨(Min.min a b, Max.max a b), min_le_max⟩

/-! ## Subject hierarchy plugin: data model -/

/-- The VTK identifier type `vtkIdType` (a signed integer) of subject hierarchy items. -/
abbrev vtkIdType := Int

/-- A non-null pointer to an MRML node object. -/
abbrev NodeRef := Nat

/-- A `QColor` value, kept as the constructor call that made it: `QColor(r, g, b, a)` or
`QColor::fromRgbF(r, g, b)`. -/
inductive QColor where
  | rgba (r g b a : Int)
  | fromRgbF (r g b : Double)
  deriving DecidableEq, Repr

/-- A `QVariant` value, kept as the conversion that made it: from a `QString`, from a
`const char*` (possibly null) or from a `bool`. -/
inductive QVariant where
  | ofQString (s : String)
  | ofCString (s : Option String)
  | ofBool (b : Bool)
  deriving DecidableEq, Repr

/-- The map `QMap<int, QVariant>` from role to value. -/
abbrev QMap := Int → Option QVariant

/-- The call `QMap::clear()`. -/
def QMap.clear (_m : QMap) : QMap := fun _ => none

/-- The assignment `map[key] = value`. -/
def QMap.set (m : QMap) (key : Int) (value : QVariant) : QMap :=
  fun k => if k = key then some value else m k

/-- The attributes of a `vtkMRMLDisplayNode` that the plugin reads or writes. -/
structure vtkMRMLDisplayNode where
  Color : Double × Double × Double
  SelectedColor : Double × Double × Double
  Visibility : Int
  Visibility2D : Int
  Visibility3D : Int
  Opacity : Double
  ViewNodeIDs : List String
  /-- The result of `IsShowModeDefault()`. -/
  ShowModeDefault : Bool
  deriving DecidableEq, Repr

/-- The attributes of a `vtkMRMLNode` that the plugin reads. -/
structure vtkMRMLNode where
  /-- The result of `GetName()`, a `char*` that may be null. -/
  Name : Option String
  /-- The result of `GetNodeTagName()`. -/
  NodeTagName : String
  /-- The result of `GetAttribute(name)`, null when the attribute is absent. -/
  Attributes : String → Option String
  /-- Whether `vtkMRMLDisplayableNode::SafeDownCast` succeeds on the node. -/
  IsDisplayable : Bool
  /-- The result of `GetDisplayNode()` on a displayable node. -/
  DisplayNode : Option NodeRef

/-- The kind of a view node, as told apart by `vtkMRMLSliceNode::SafeDownCast` and
`vtkMRMLViewNode::SafeDownCast`. -/
inductive ViewKind where
  | slice
  | threeD
  | other
  deriving DecidableEq, Repr

/-- A `vtkMRMLAbstractViewNode`. -/
structure vtkMRMLAbstractViewNode where
  /-- The result of `GetID()`, a `char*` that may be null. -/
  ID : Option String
  kind : ViewKind
  deriving DecidableEq, Repr

/-- The part of a `vtkMRMLScene` that the plugin reads. -/
structure vtkMRMLScene where
  IsImporting : Bool
  deriving DecidableEq, Repr

/-- The scene state the plugin works on. `SH` is the state of the subject hierarchy node,
whose class is implemented outside the sources at hand. -/
structure SceneState (SH : Type) where
  /-- The handler call `instance()->subjectHierarchyNode()`, null when there is none. -/
  subjectHierarchyNode : Option SH
  /-- The handler call `instance()->mrmlScene()`. -/
  mrmlScene : Option vtkMRMLScene
  nodes : NodeRef → vtkMRMLNode
  displayNodes : NodeRef → vtkMRMLDisplayNode

/-- Scene state together with the messages written through `qCritical()`. -/
structure World (SH : Type) where
  state : SceneState SH
  log : List String

/-- Writes one message through `qCritical()`. -/
def World.qCritical {SH : Type} (w : World SH) (msg : String) : World SH :=
  { w with log := w.log ++ [msg] }

/-- What the plugin calls but does not define: methods of `vtkMRMLSubjectHierarchyNode`,
of the application, of the terminologies logic and of Qt, with the constants they come
with. All of them are parameters of the embedding. -/
structure Externals (SH : Type) where
  /-- The constant `vtkMRMLSubjectHierarchyNode::INVALID_ITEM_ID`. -/
  INVALID_ITEM_ID : vtkIdType
  GetItemDataNode : SH → vtkIdType → Option NodeRef
  GetSceneItemID : SH → vtkIdType
  /-- The call `CreateItem(parentItemID, dataNode, ownerPluginName)`: the new item ID and
  the subject hierarchy afterwards. -/
  CreateItem : SH → vtkIdType → NodeRef → String → vtkIdType × SH
  SetItemParent : SH → vtkIdType → vtkIdType → SH
  GetItemName : SH → vtkIdType → String
  GetItemDisplayVisibility : SH → vtkIdType → Int
  GetItemOwnerPluginName : SH → vtkIdType → String
  /-- The call `qSlicerApplication::nodeModule(node, &confidence)`: module name and
  confidence. -/
  nodeModule : vtkMRMLNode → String × Double
  GetTerminologyEntryAsString : vtkMRMLNode → String
  GetDefaultTerminologyEntryAsString : vtkMRMLNode → String
  GetNameAutoGeneratedAttributeName : String
  GetColorAutoGeneratedAttributeName : String
  TerminologyRole : Int
  DefaultTerminologyRole : Int
  NameRole : Int
  NameAutoGeneratedRole : Int
  ColorAutoGeneratedRole : Int
  /-- The conversion `QVariant(const char*).toBool()`. -/
  toBool : String → Bool
  /-- The virtual call `displayableNode->CreateDefaultDisplayNodes()`. -/
  CreateDefaultDisplayNodes : SceneState SH → NodeRef → SceneState SH

/-- Modelled from the spec: `vtkMRMLDisplayNode::AddViewNodeID` (MRML library, not part of
the sources at hand): a null ID and an ID that is already listed are ignored, any other ID
is added at the end of the list. -/
def AddViewNodeID (d : vtkMRMLDisplayNode) (viewNodeID : Option String) :
    vtkMRMLDisplayNode :=
  match viewNodeID with
  | none => d
  | some id => if id ∈ d.ViewNodeIDs then d else { d with ViewNodeIDs := d.ViewNodeIDs ++ [id] }

/-- Modelled from the spec: `vtkMRMLDisplayNode::RemoveAllViewNodeIDs` (MRML library, not
part of the sources at hand): the list of view node IDs becomes empty. -/
def RemoveAllViewNodeIDs (d : vtkMRMLDisplayNode) : vtkMRMLDisplayNode :=
  { d with ViewNodeIDs := [] }

/-- Stores a display node back at its address. -/
def SceneState.setDisplayNode {SH : Type} (s : SceneState SH) (ref : NodeRef)
    (d : vtkMRMLDisplayNode) : SceneState SH :=
  { s with displayNodes := fun r => if r = ref then d else s.displayNodes r }

/-- The plugin object: its name `m_Name`. -/
structure qSlicerSubjectHierarchyAbstractPlugin where
  m_Name : String
  deriving DecidableEq, Repr

/-! ## Subject hierarchy plugin: operations -/

section PluginOperations

variable {SH : Type}

/-- The constructor: `m_Name(QString())`. -/
def qSlicerSubjectHierarchyAbstractPlugin.New : qSlicerSubjectHierarchyAbstractPlugin :=
  { m_Name := "" }

/-- `qSlicerSubjectHierarchyAbstractPlugin::name`. -/
def name (self : qSlicerSubjectHierarchyAbstractPlugin) (w : World SH) :
    String × World SH :=
  let w := if self.m_Name.isEmpty then w.qCritical "name: Empty plugin name" else w
  (self.m_Name, w)

/-- `qSlicerSubjectHierarchyAbstractPlugin::setName`: the plugin afterwards and the world
afterwards. -/
def setName (self : qSlicerSubjectHierarchyAbstractPlugin) (w : World SH) (_name : String) :
    qSlicerSubjectHierarchyAbstractPlugin × World SH :=
  (self, w.qCritical "setName: Cannot set plugin name by method, only in constructor")

/-- `qSlicerSubjectHierarchyAbstractPlugin::canEditProperties`. -/
def canEditProperties (ext : Externals SH) (w : World SH) (itemID : vtkIdType) :
    Bool × World SH :=
  match w.state.subjectHierarchyNode with
  | none => (false, w.qCritical "canEditProperties: Failed to access subject hierarchy node")
  | some shNode =>
    match ext.GetItemDataNode shNode itemID with
    | none => (false, w)
    | some node =>
      let moduleForEditProperties := (ext.nodeModule (w.state.nodes node)).1
      let confidence := (ext.nodeModule (w.state.nodes node)).2
      (!moduleForEditProperties.isEmpty && decide (confidence > 0), w)

/-- `qSlicerSubjectHierarchyAbstractPlugin::addNodeToSubjectHierarchy`; `nodeToAdd` is a
pointer that may be null. -/
def addNodeToSubjectHierarchy (ext : Externals SH)
    (self : qSlicerSubjectHierarchyAbstractPlugin) (w : World SH)
    (nodeToAdd : Option NodeRef) (parentItemID : vtkIdType) : Bool × World SH :=
  match nodeToAdd with
  | none => (false, w.qCritical "addNodeToSubjectHierarchy: Invalid node to add")
  | some node =>
    match w.state.subjectHierarchyNode with
    | none =>
      (false, w.qCritical "addNodeToSubjectHierarchy: Failed to access subject hierarchy node")
    | some shNode =>
      let parentItemID := if parentItemID = 0 then ext.GetSceneItemID shNode else parentItemID
      let created := ext.CreateItem shNode parentItemID node self.m_Name
      let w1 : World SH :=
        { w with state := { w.state with subjectHierarchyNode := some created.2 } }
      if created.1 = 0 then
        (false, w1.qCritical
          ("addNodeToSubjectHierarchy: Failed to add subject hierarchy item for data node "
            ++ ((w1.state.nodes node).Name.getD "")))
      else (true, w1)

/-- `qSlicerSubjectHierarchyAbstractPlugin::reparentItemInsideSubjectHierarchy`. -/
def reparentItemInsideSubjectHierarchy (ext : Externals SH) (w : World SH)
    (itemID parentItemID : vtkIdType) : Bool × World SH :=
  match w.state.subjectHierarchyNode with
  | none =>
    (false,
      w.qCritical "reparentItemInsideSubjectHierarchy: Failed to access subject hierarchy node")
  | some shNode =>
    (true, { w with state := { w.state with
      subjectHierarchyNode := some (ext.SetItemParent shNode itemID parentItemID) } })

/-- `qSlicerSubjectHierarchyAbstractPlugin::displayedItemName`. -/
def displayedItemName (ext : Externals SH) (w : World SH) (itemID : vtkIdType) :
    String × World SH :=
  match w.state.subjectHierarchyNode with
  | none => ("", w.qCritical "displayedItemName: Failed to access subject hierarchy node")
  | some shNode => (ext.GetItemName shNode itemID, w)

/-- `qSlicerSubjectHierarchyAbstractPlugin::tooltip`. -/
def tooltip (ext : Externals SH) (w : World SH) (itemID : vtkIdType) : String × World SH :=
  match w.state.subjectHierarchyNode with
  | none => ("", w.qCritical "tooltip: Failed to access subject hierarchy node")
  | some shNode =>
    let tooltipString := ""
    match ext.GetItemDataNode shNode itemID with
    | some dataNode => (tooltipString ++ (w.state.nodes dataNode).NodeTagName, w)
    | none => (tooltipString, w)

/-- `qSlicerSubjectHierarchyAbstractPlugin::getDisplayVisibility`. -/
def getDisplayVisibility (ext : Externals SH) (w : World SH) (itemID : vtkIdType) :
    Int × World SH :=
  match w.state.subjectHierarchyNode with
  | none => (0, w.qCritical "getDisplayVisibility: Failed to access subject hierarchy node")
  | some shNode => (ext.GetItemDisplayVisibility shNode itemID, w)

/-- The flag read from a node attribute in `colorAndTerminologyFromDisplayableNode`: the
default when the attribute is absent, its `toBool()` value otherwise. -/
def autoGeneratedFlag (ext : Externals SH) (node : vtkMRMLNode) (attributeName : String)
    (default : Bool) : Bool :=
  match node.Attributes attributeName with
  | some value => ext.toBool value
  | none => default

/-- `qSlicerSubjectHierarchyAbstractPlugin::colorAndTerminologyFromDisplayableNode`: the
returned color, the map `terminologyMetaData` afterwards and the world afterwards. -/
def colorAndTerminologyFromDisplayableNode (ext : Externals SH) (w : World SH)
    (itemID : vtkIdType) (terminologyMetaData : QMap) (useSelectedColor : Bool) :
    QColor × QMap × World SH :=
  if itemID = ext.INVALID_ITEM_ID then
    (QColor.rgba 0 0 0 0, terminologyMetaData,
      w.qCritical "colorAndTerminologyFromDisplayableNode: Invalid input item")
  else
  match w.state.subjectHierarchyNode with
  | none =>
    (QColor.rgba 0 0 0 0, terminologyMetaData, w.qCritical
      "colorAndTerminologyFromDisplayableNode: Failed to access subject hierarchy node")
  | some shNode =>
  match w.state.mrmlScene with
  | none =>
    (QColor.rgba 0 0 0 0, terminologyMetaData,
      w.qCritical "colorAndTerminologyFromDisplayableNode: Invalid MRML scene")
  | some scene =>
  if scene.IsImporting then (QColor.rgba 0 0 0 0, terminologyMetaData, w)
  else
  let unableToFind : QColor × QMap × World SH :=
    (QColor.rgba 0 0 0 0, terminologyMetaData, w.qCritical
      ("colorAndTerminologyFromDisplayableNode: Unable to find node for subject hierarchy item "
        ++ ext.GetItemName shNode itemID))
  match ext.GetItemDataNode shNode itemID with
  | none => unableToFind
  | some dataNode =>
  let displayableNode := w.state.nodes dataNode
  if !displayableNode.IsDisplayable then unableToFind
  else
  match displayableNode.DisplayNode with
  | none => (QColor.rgba 0 0 0 0, terminologyMetaData, w)
  | some displayNodeRef =>
  let displayNode := w.state.displayNodes displayNodeRef
  let terminologyMetaData := terminologyMetaData.clear
  let terminologyMetaData := terminologyMetaData.set ext.TerminologyRole
    (QVariant.ofQString (ext.GetTerminologyEntryAsString displayableNode))
  let terminologyMetaData := terminologyMetaData.set ext.DefaultTerminologyRole
    (QVariant.ofQString (ext.GetDefaultTerminologyEntryAsString displayableNode))
  let terminologyMetaData := terminologyMetaData.set ext.NameRole
    (QVariant.ofCString displayableNode.Name)
  let nameAutoGenerated :=
    autoGeneratedFlag ext displayableNode ext.GetNameAutoGeneratedAttributeName false
  let terminologyMetaData := terminologyMetaData.set ext.NameAutoGeneratedRole
    (QVariant.ofBool nameAutoGenerated)
  let colorAutoGenerated :=
    autoGeneratedFlag ext displayableNode ext.GetColorAutoGeneratedAttributeName true
  let terminologyMetaData := terminologyMetaData.set ext.ColorAutoGeneratedRole
    (QVariant.ofBool colorAutoGenerated)
  let colorArray := if useSelectedColor then displayNode.SelectedColor else displayNode.Color
  (QColor.fromRgbF colorArray.1 colorArray.2.1 colorArray.2.2, terminologyMetaData, w)

/-- `qSlicerSubjectHierarchyAbstractPlugin::isThisPluginOwnerOfItem`. -/
def isThisPluginOwnerOfItem (ext : Externals SH)
    (self : qSlicerSubjectHierarchyAbstractPlugin) (w : World SH) (itemID : vtkIdType) :
    Bool × World SH :=
  match w.state.subjectHierarchyNode with
  | none =>
    (false, w.qCritical "isThisPluginOwnerOfItem: Failed to access subject hierarchy node")
  | some shNode => (decide (ext.GetItemOwnerPluginName shNode itemID = self.m_Name), w)

/-- The display node after the "show in specific view" branch of `showItemInView`. -/
def showInSpecificView (displayNode : vtkMRMLDisplayNode)
    (viewNode : vtkMRMLAbstractViewNode) : vtkMRMLDisplayNode :=
  let d := if displayNode.Visibility = 0 then
      RemoveAllViewNodeIDs { displayNode with Visibility := 1 }
    else displayNode
  let d := AddViewNodeID d viewNode.ID
  let d := if d.Opacity ≤ 0 then { d with Opacity := 1 } else d
  let d := if viewNode.kind = ViewKind.slice then { d with Visibility2D := 1 } else d
  if viewNode.kind = ViewKind.threeD then { d with Visibility3D := 1 } else d

/-- The display node after the "show in all views" branch of `showItemInView`. -/
def showInAllViews (displayNode : vtkMRMLDisplayNode) : vtkMRMLDisplayNode :=
  let d := RemoveAllViewNodeIDs displayNode
  let d := { d with Visibility := 1 }
  let d := if d.Opacity ≤ 0 then { d with Opacity := 1 } else d
  let d := { d with Visibility2D := 1 }
  { d with Visibility3D := 1 }

/-- `qSlicerSubjectHierarchyAbstractPlugin::showItemInView`; `viewNode` is a pointer that
may be null, the argument `allItemsToShow` is not used. -/
def showItemInView (ext : Externals SH) (w : World SH) (itemID : vtkIdType)
    (viewNode : Option vtkMRMLAbstractViewNode) : Bool × World SH :=
  match w.state.subjectHierarchyNode with
  | none => (false, w.qCritical "showItemInView: Failed to access subject hierarchy node")
  | some shNode =>
  match ext.GetItemDataNode shNode itemID with
  | none => (false, w)
  | some dataNode =>
  if !(w.state.nodes dataNode).IsDisplayable then (false, w)
  else
  let state1 := ext.CreateDefaultDisplayNodes w.state dataNode
  let w1 : World SH := { w with state := state1 }
  match (state1.nodes dataNode).DisplayNode with
  | none => (false, w1)
  | some displayNodeRef =>
  let displayNode := state1.displayNodes displayNodeRef
  if !displayNode.ShowModeDefault then (false, w1)
  else
  match viewNode with
  | some view =>
    (true, { w1 with
      state := state1.setDisplayNode displayNodeRef (showInSpecificView displayNode view) })
  | none =>
    (true, { w1 with
      state := state1.setDisplayNode displayNodeRef (showInAllViews displayNode) })

end PluginOperations

/-! ## A small scene on which the operations can be evaluated -/

/-- A subject hierarchy kept as the list of its items `(item, parent, data node, owner)`;
the scene item has ID 1. -/
abbrev ExampleHierarchy := List (vtkIdType × vtkIdType × NodeRef × String)

/-- Item creation in the example hierarchy: the parent has to be the scene item or a listed
item, otherwise the invalid ID 0 is returned and nothing is added. -/
def ExampleHierarchy.CreateItem (sh : ExampleHierarchy) (parentItemID : vtkIdType)
    (dataNode : NodeRef) (owner : String) : vtkIdType × ExampleHierarchy :=
  if parentItemID = 1 ∨ parentItemID ∈ sh.map (fun item => item.1) then
    ((sh.length : Int) + 2, sh ++ [((sh.length : Int) + 2, parentItemID, dataNode, owner)])
  else (0, sh)

/-- The externals of the example scene. -/
def exampleExternals : Externals ExampleHierarchy where
  INVALID_ITEM_ID := 0
  GetItemDataNode := fun sh itemID =>
    (sh.find? (fun item => item.1 = itemID)).map (fun item => item.2.2.1)
  GetSceneItemID := fun _ => 1
  CreateItem := ExampleHierarchy.CreateItem
  SetItemParent := fun sh itemID parentItemID =>
    sh.map (fun item => if item.1 = itemID then (item.1, parentItemID, item.2.2) else item)
  GetItemName := fun _ itemID => toString itemID
  GetItemDisplayVisibility := fun _ _ => 1
  GetItemOwnerPluginName := fun sh itemID =>
    ((sh.find? (fun item => item.1 = itemID)).map (fun item => item.2.2.2)).getD ""
  nodeModule := fun node => (node.NodeTagName, 1 / 2)
  GetTerminologyEntryAsString := fun _ => ""
  GetDefaultTerminologyEntryAsString := fun _ => ""
  GetNameAutoGeneratedAttributeName := "Terminologies.AutoUpdateNodeName"
  GetColorAutoGeneratedAttributeName := "Terminologies.AutoUpdateNodeColor"
  TerminologyRole := 756
  DefaultTerminologyRole := 757
  NameRole := 758
  NameAutoGeneratedRole := 759
  ColorAutoGeneratedRole := 760
  toBool := fun value => !(value = "" ∨ value = "0" ∨ value = "false")
  CreateDefaultDisplayNodes := fun s _ => s

/-- The example scene: every address holds a displayable model node shown by display node
0, and the handler has the given subject hierarchy node. -/
def exampleWorld (shNode : Option ExampleHierarchy) : World ExampleHierarchy where
  state :=
    { subjectHierarchyNode := shNode
      mrmlScene := some { IsImporting := false }
      nodes := fun _ =>
        { Name := some "Model", NodeTagName := "Model", Attributes := fun _ => none,
          IsDisplayable := true, DisplayNode := some 0 }
      displayNodes := fun _ =>
        { Color := (1, 0, 0), SelectedColor := (0, 1, 0), Visibility := 0, Visibility2D := 0,
          Visibility3D := 0, Opacity := 1, ViewNodeIDs := ["vtkMRMLViewNode1"],
          ShowModeDefault := true } }
  log := []

/-- The example scene with one item: item 2 under the scene item, owned by the plugin
"Models", with the data node at address 7. Its display node is hidden and lists one view. -/
def exampleItemWorld : World ExampleHierarchy :=
  exampleWorld (some [(2, 1, 7, "Models")])

/-- The example scene with item 2 where the display node of the data node is already
visible. -/
def exampleVisibleItemWorld : World ExampleHierarchy :=
  { exampleItemWorld with
    state := exampleItemWorld.state.setDisplayNode 0
      { exampleItemWorld.state.displayNodes 0 with Visibility := 1 } }

/-! ## Theorems -/

/-! ### Helper lemmas: string layout -/

theorem piecewiseData_length (f : vtkPiecewiseFunction) :
    (piecewiseData f).length = 2 * f.length := by
  induction f with
  | nil => rfl
  | cons p rest ih => simp [piecewiseData, ih]; omega

theorem colorData_length (f : vtkColorTransferFunction) :
    (colorData f).length = 4 * f.length := by
  induction f with
  | nil => rfl
  | cons p rest ih => simp [piecewiseData, colorData, ih]; omega

theorem piecewiseData_get (f : vtkPiecewiseFunction) (i : Nat) :
    (piecewiseData f)[2 * i]? = f[i]?.map (fun p => p.1) ∧
    (piecewiseData f)[2 * i + 1]? = f[i]?.map (fun p => p.2) := by
  induction f generalizing i with
  | nil => simp [piecewiseData]
  | cons p rest ih =>
    cases i with
    | zero => simp [piecewiseData]
    | succ k =>
      have h1 : 2 * (k + 1) = (2 * k) + 1 + 1 := by omega
      have h2 : 2 * (k + 1) + 1 = (2 * k + 1) + 1 + 1 := by omega
      rw [h2, h1]
      simpa [piecewiseData] using ih k

theorem colorData_get (f : vtkColorTransferFunction) (i : Nat) :
    (colorData f)[4 * i]? = f[i]?.map (fun p => p.1) ∧
    (colorData f)[4 * i + 1]? = f[i]?.map (fun p => p.2.1) ∧
    (colorData f)[4 * i + 2]? = f[i]?.map (fun p => p.2.2.1) ∧
    (colorData f)[4 * i + 3]? = f[i]?.map (fun p => p.2.2.2) := by
  induction f generalizing i with
  | nil => simp [colorData]
  | cons p rest ih =>
    cases i with
    | zero => simp [colorData]
    | succ k =>
      have h0 : 4 * (k + 1) = (4 * k) + 1 + 1 + 1 + 1 := by omega
      have h1 : 4 * (k + 1) + 1 = (4 * k + 1) + 1 + 1 + 1 + 1 := by omega
      have h2 : 4 * (k + 1) + 2 = (4 * k + 2) + 1 + 1 + 1 + 1 := by omega
      have h3 : 4 * (k + 1) + 3 = (4 * k + 3) + 1 + 1 + 1 + 1 := by omega
      rw [h3, h2, h1, h0]
      simpa [colorData] using ih k

/-! ### Helper lemmas: reading back -/

theorem numberOfPoints_header (n : Nat) (rest : List Double) :
    numberOfPoints ((n : Double) :: rest) = n := by
  simp [numberOfPoints]

theorem readPiecewiseNodes_data (f : vtkPiecewiseFunction) :
    readPiecewiseNodes f.length (piecewiseData f) = f := by
  induction f with
  | nil => simp [piecewiseData, readPiecewiseNodes]
  | cons p rest ih => simp [piecewiseData, readPiecewiseNodes, ih]

theorem readColorNodes_data (f : vtkColorTransferFunction) :
    readColorNodes f.length (colorData f) = f := by
  induction f with
  | nil => simp [colorData, readColorNodes]
  | cons p rest ih => simp [colorData, readColorNodes, ih]

theorem AddPoint_last (acc : vtkPiecewiseFunction) (x y : Double)
    (h : ∀ p ∈ acc, p.1 < x) : AddPoint acc x y = acc ++ [(x, y)] := by
  induction acc with
  | nil => rfl
  | cons p rest ih =>
    have hp : p.1 < x := h p (List.mem_cons_self _ _)
    have hrest : ∀ q ∈ rest, q.1 < x := fun q hq => h q (List.mem_cons_of_mem _ hq)
    simp [AddPoint, not_lt_of_gt hp, ne_of_gt hp, ih hrest]

theorem AddRGBPoint_last (acc : vtkColorTransferFunction) (x r g b : Double)
    (h : ∀ p ∈ acc, p.1 < x) : AddRGBPoint acc x r g b = acc ++ [(x, r, g, b)] := by
  induction acc with
  | nil => rfl
  | cons p rest ih =>
    have hp : p.1 < x := h p (List.mem_cons_self _ _)
    have hrest : ∀ q ∈ rest, q.1 < x := fun q hq => h q (List.mem_cons_of_mem _ hq)
    simp [AddRGBPoint, not_lt_of_gt hp, ne_of_gt hp, ih hrest]

theorem foldl_AddPoint (pts acc : vtkPiecewiseFunction)
    (h : StrictlyIncreasing (acc ++ pts)) :
    pts.foldl (fun f p => AddPoint f p.1 p.2) acc = acc ++ pts := by
  induction pts generalizing acc with
  | nil => simp
  | cons p rest ih =>
    have hlt : ∀ q ∈ acc, q.1 < p.1 := by
      intro q hq
      have h2 := List.pairwise_append.1 h
      exact h2.2.2 q hq p (List.mem_cons_self _ _)
    have h3 : StrictlyIncreasing ((acc ++ [p]) ++ rest) := by
      simpa [StrictlyIncreasing] using h
    simp only [List.foldl_cons]
    rw [AddPoint_last acc p.1 p.2 hlt, ih (acc ++ [p]) h3]
    simp

theorem foldl_AddRGBPoint (pts acc : vtkColorTransferFunction)
    (h : StrictlyIncreasing (acc ++ pts)) :
    pts.foldl (fun f p => AddRGBPoint f p.1 p.2.1 p.2.2.1 p.2.2.2) acc = acc ++ pts := by
  induction pts generalizing acc with
  | nil => simp
  | cons p rest ih =>
    have hlt : ∀ q ∈ acc, q.1 < p.1 := by
      intro q hq
      have h2 := List.pairwise_append.1 h
      exact h2.2.2 q hq p (List.mem_cons_self _ _)
    have h3 : StrictlyIncreasing ((acc ++ [p]) ++ rest) := by
      simpa [StrictlyIncreasing] using h
    simp only [List.foldl_cons]
    rw [AddRGBPoint_last acc p.1 p.2.1 p.2.2.1 p.2.2.2 hlt, ih (acc ++ [p]) h3]
    simp

theorem piecewise_decode_encode (f result : vtkPiecewiseFunction)
    (h : StrictlyIncreasing f) :
    GetPiecewiseFunctionFromString (GetPiecewiseFunctionString f) result = f := by
  unfold GetPiecewiseFunctionFromString GetPiecewiseFunctionString
  rw [numberOfPoints_header, List.tail_cons, readPiecewiseNodes_data, RemoveAllPoints]
  simpa using foldl_AddPoint f [] (by simpa using h)

theorem color_decode_encode (f result : vtkColorTransferFunction)
    (h : StrictlyIncreasing f) :
    GetColorTransferFunctionFromString (GetColorTransferFunctionString f) result = f := by
  unfold GetColorTransferFunctionFromString GetColorTransferFunctionString
  rw [numberOfPoints_header, List.tail_cons, readColorNodes_data, RemoveAllPoints]
  simpa using foldl_AddRGBPoint f [] (by simpa using h)

/-! ### Transfer-function strings -/

/-- C1. Piecewise-function round trip: for every piecewise function `f` whose control points
have strictly increasing x and every prior content of `result`,
`GetPiecewiseFunctionFromString(GetPiecewiseFunctionString(f), result)` leaves `result` with
as many control points as `f` and with the same (x, opacity) pair at every position. -/
theorem piecewise_round_trip (f result : vtkPiecewiseFunction) (h : StrictlyIncreasing f) :
    (GetPiecewiseFunctionFromString (GetPiecewiseFunctionString f) result).length = f.length ∧
    ∀ i : Nat,
      (GetPiecewiseFunctionFromString (GetPiecewiseFunctionString f) result)[i]? = f[i]? := by
  rw [piecewise_decode_encode f result h]
  exact ⟨rfl, fun _ => rfl⟩

/-- The round trip of C1 on the two points (0, 0), (5, 1/2), read into a function that held
the point (7, 7). -/
theorem piecewise_round_trip_witness :
    StrictlyIncreasing [((0 : Double), (0 : Double)), (5, 1 / 2)] ∧
    ((GetPiecewiseFunctionFromString
        (GetPiecewiseFunctionString [(0, 0), (5, 1 / 2)]) [(7, 7)]).length = 2 ∧
      ∀ i : Nat,
        (GetPiecewiseFunctionFromString
          (GetPiecewiseFunctionString [(0, 0), (5, 1 / 2)]) [(7, 7)])[i]?
          = [((0 : Double), (0 : Double)), (5, 1 / 2)][i]?) :=
  ⟨by simp [StrictlyIncreasing],
   piecewise_round_trip [(0, 0), (5, 1 / 2)] [(7, 7)] (by simp [StrictlyIncreasing])⟩

/-- C2. Color-transfer-function round trip: for every color transfer function `f` whose
control points have strictly increasing x and every prior content of `result`,
`GetColorTransferFunctionFromString(GetColorTransferFunctionString(f), result)` leaves
`result` with as many control points as `f` and with the same (x, r, g, b) tuple at every
position. -/
theorem color_round_trip (f result : vtkColorTransferFunction) (h : StrictlyIncreasing f) :
    (GetColorTransferFunctionFromString (GetColorTransferFunctionString f) result).length
      = f.length ∧
    ∀ i : Nat,
      (GetColorTransferFunctionFromString (GetColorTransferFunctionString f) result)[i]?
        = f[i]? := by
  rw [color_decode_encode f result h]
  exact ⟨rfl, fun _ => rfl⟩

/-- The round trip of C2 on the two points (-1, 0, 0, 0), (3, 1, 1/2, 0), read into a
function that held the point (3, 1, 1, 1). -/
theorem color_round_trip_witness :
    StrictlyIncreasing
      [((-1 : Double), (0 : Double), (0 : Double), (0 : Double)), (3, 1, 1 / 2, 0)] ∧
    ((GetColorTransferFunctionFromString
        (GetColorTransferFunctionString [(-1, 0, 0, 0), (3, 1, 1 / 2, 0)])
        [(3, 1, 1, 1)]).length = 2 ∧
      ∀ i : Nat,
        (GetColorTransferFunctionFromString
          (GetColorTransferFunctionString [(-1, 0, 0, 0), (3, 1, 1 / 2, 0)])
          [(3, 1, 1, 1)])[i]?
          = [((-1 : Double), (0 : Double), (0 : Double), (0 : Double)),
              (3, 1, 1 / 2, 0)][i]?) :=
  ⟨by norm_num [StrictlyIncreasing],
   color_round_trip [(-1, 0, 0, 0), (3, 1, 1 / 2, 0)] [(3, 1, 1, 1)]
     (by norm_num [StrictlyIncreasing])⟩

/-- C3. Piecewise string format: for every piecewise function with N control points the
tokens of `GetPiecewiseFunctionString` start with N and go on with exactly 2*N values,
the x and the opacity of point i at the positions 2*i and 2*i+1 after the header. -/
theorem piecewise_string_format (f : vtkPiecewiseFunction) :
    (GetPiecewiseFunctionString f).head? = some (f.length : Double) ∧
    (GetPiecewiseFunctionString f).tail.length = 2 * f.length ∧
    ∀ i : Fin f.length,
      (GetPiecewiseFunctionString f).tail[2 * i.1]? = some (f.get i).1 ∧
      (GetPiecewiseFunctionString f).tail[2 * i.1 + 1]? = some (f.get i).2 := by
  refine ⟨rfl, piecewiseData_length f, fun i => ?_⟩
  have h := piecewiseData_get f i.1
  simpa [GetPiecewiseFunctionString, List.getElem?_eq_getElem i.2] using h

/-- C4. Color string format: for every color transfer function with N control points the
tokens of `GetColorTransferFunctionString` start with N and go on with exactly 4*N values,
the x, r, g and b of point i at the positions 4*i to 4*i+3 after the header. -/
theorem color_string_format (f : vtkColorTransferFunction) :
    (GetColorTransferFunctionString f).head? = some (f.length : Double) ∧
    (GetColorTransferFunctionString f).tail.length = 4 * f.length ∧
    ∀ i : Fin f.length,
      (GetColorTransferFunctionString f).tail[4 * i.1]? = some (f.get i).1 ∧
      (GetColorTransferFunctionString f).tail[4 * i.1 + 1]? = some (f.get i).2.1 ∧
      (GetColorTransferFunctionString f).tail[4 * i.1 + 2]? = some (f.get i).2.2.1 ∧
      (GetColorTransferFunctionString f).tail[4 * i.1 + 3]? = some (f.get i).2.2.2 := by
  refine ⟨rfl, colorData_length f, fun i => ?_⟩
  have h := colorData_get f i.1
  simpa [GetColorTransferFunctionString, List.getElem?_eq_getElem i.2] using h

/-! ### Attributes of the volume property node -/

/-- C5. Component-count invariant: with `1 <= VTK_MAX_VRCOMP`, after any sequence of
`SetNumberOfIndependentComponents` calls on a fresh node (the empty sequence included) the
count lies in `[1, VTK_MAX_VRCOMP]`; in any node an argument below 1 stores 1, one above
`VTK_MAX_VRCOMP` stores `VTK_MAX_VRCOMP`, one inside the interval is stored unchanged. -/
theorem component_count_clamped (VTK_MAX_VRCOMP : Int) (hmax : 1 ≤ VTK_MAX_VRCOMP) :
    (∀ args : List Int,
      1 ≤ GetNumberOfIndependentComponents (afterSetComponentCalls VTK_MAX_VRCOMP args) ∧
      GetNumberOfIndependentComponents (afterSetComponentCalls VTK_MAX_VRCOMP args)
        ≤ VTK_MAX_VRCOMP) ∧
    (∀ (node : vtkMRMLVolumePropertyNode) (arg : Int), arg < 1 →
      GetNumberOfIndependentComponents
        (SetNumberOfIndependentComponents VTK_MAX_VRCOMP node arg) = 1) ∧
    (∀ (node : vtkMRMLVolumePropertyNode) (arg : Int), VTK_MAX_VRCOMP < arg →
      GetNumberOfIndependentComponents
        (SetNumberOfIndependentComponents VTK_MAX_VRCOMP node arg) = VTK_MAX_VRCOMP) ∧
    (∀ (node : vtkMRMLVolumePropertyNode) (arg : Int), 1 ≤ arg → arg ≤ VTK_MAX_VRCOMP →
      GetNumberOfIndependentComponents
        (SetNumberOfIndependentComponents VTK_MAX_VRCOMP node arg) = arg) := by
  have hset : ∀ (node : vtkMRMLVolumePropertyNode) (arg : Int),
      GetNumberOfIndependentComponents
        (SetNumberOfIndependentComponents VTK_MAX_VRCOMP node arg)
        = vtkClamp arg 1 VTK_MAX_VRCOMP := by
    intro node arg
    unfold SetNumberOfIndependentComponents GetNumberOfIndependentComponents
    split
    · rfl
    · rename_i hne
      exact not_not.1 hne
  have hclamp : ∀ arg : Int,
      1 ≤ vtkClamp arg 1 VTK_MAX_VRCOMP ∧ vtkClamp arg 1 VTK_MAX_VRCOMP ≤ VTK_MAX_VRCOMP := by
    intro arg
    unfold vtkClamp
    split_ifs <;> omega
  have hinv : ∀ (args : List Int) (node : vtkMRMLVolumePropertyNode),
      (1 ≤ node.NumberOfIndependentComponents ∧
        node.NumberOfIndependentComponents ≤ VTK_MAX_VRCOMP) →
      1 ≤ (args.foldl (SetNumberOfIndependentComponents VTK_MAX_VRCOMP)
        node).NumberOfIndependentComponents ∧
      (args.foldl (SetNumberOfIndependentComponents VTK_MAX_VRCOMP)
        node).NumberOfIndependentComponents ≤ VTK_MAX_VRCOMP := by
    intro args
    induction args with
    | nil => intro node h; exact h
    | cons a rest ih =>
      intro node _
      rw [List.foldl_cons]
      apply ih
      have := hset node a
      unfold GetNumberOfIndependentComponents at this
      rw [this]
      exact hclamp a
  refine ⟨fun args => ?_, fun node arg h => ?_, fun node arg h => ?_, fun node arg h1 h2 => ?_⟩
  · exact hinv args vtkMRMLVolumePropertyNode.New
      ⟨by simp [vtkMRMLVolumePropertyNode.New], by simpa [vtkMRMLVolumePropertyNode.New]⟩
  · rw [hset]; simp [vtkClamp, h]
  · rw [hset]; unfold vtkClamp; split_ifs <;> omega
  · rw [hset]; unfold vtkClamp; split_ifs <;> omega

/-- The invariant of C5 at `VTK_MAX_VRCOMP = 4`: the calls with 0, 9, 3 in this order leave
the count 3, and the stored values are 1, 4 and 3. -/
theorem component_count_clamped_witness :
    (1 : Int) ≤ 4 ∧
    GetNumberOfIndependentComponents (afterSetComponentCalls 4 [0, 9, 3]) = 3 ∧
    (1 ≤ GetNumberOfIndependentComponents (afterSetComponentCalls 4 [0, 9, 3]) ∧
      GetNumberOfIndependentComponents (afterSetComponentCalls 4 [0, 9, 3]) ≤ 4) ∧
    GetNumberOfIndependentComponents
      (SetNumberOfIndependentComponents 4 vtkMRMLVolumePropertyNode.New 0) = 1 ∧
    GetNumberOfIndependentComponents
      (SetNumberOfIndependentComponents 4 vtkMRMLVolumePropertyNode.New 9) = 4 ∧
    GetNumberOfIndependentComponents
      (SetNumberOfIndependentComponents 4 vtkMRMLVolumePropertyNode.New 3) = 3 :=
  ⟨by decide, by decide,
   (component_count_clamped 4 (by decide)).1 [0, 9, 3],
   (component_count_clamped 4 (by decide)).2.1 vtkMRMLVolumePropertyNode.New 0 (by decide),
   (component_count_clamped 4 (by decide)).2.2.1 vtkMRMLVolumePropertyNode.New 9 (by decide),
   (component_count_clamped 4 (by decide)).2.2.2 vtkMRMLVolumePropertyNode.New 3
     (by decide) (by decide)⟩

theorem SetEffectiveRange_ordered_arguments
    (unordered : vtkMRMLVolumePropertyNode → Double → Double → OrderedRange)
    (node : vtkMRMLVolumePropertyNode) (min max : Double) (h : min ≤ max) :
    (SetEffectiveRange unordered node min max).EffectiveRange = (min, max) := by
  simp [SetEffectiveRange, h]

/-- C8. The plugin name can only be set at construction: for every plugin, every world and
every string `n`, `setName(n)` leaves the stored name unchanged, `name()` returns the same
value after the call as before it, and `name()` returns the stored name, empty or not. -/
theorem setName_keeps_name {SH : Type} (self : qSlicerSubjectHierarchyAbstractPlugin)
    (w : World SH) (n : String) :
    (setName self w n).1.m_Name = self.m_Name ∧
    (name (setName self w n).1 (setName self w n).2).1 = (name self w).1 ∧
    (name self w).1 = self.m_Name ∧
    (setName self w n).2.state = w.state :=
  ⟨rfl, rfl, rfl, rfl⟩

/-- C9. Null-check defaults: when the handler has no subject hierarchy node, every default
operation returns its default value for all arguments and leaves the scene state as it
was: `canEditProperties`, `addNodeToSubjectHierarchy`, `reparentItemInsideSubjectHierarchy`,
`isThisPluginOwnerOfItem` and `showItemInView` return false, `displayedItemName` and
`tooltip` return the empty string, `getDisplayVisibility` returns 0 and
`colorAndTerminologyFromDisplayableNode` returns the transparent color (0,0,0,0) without
touching the metadata map. -/
theorem defaults_without_subject_hierarchy {SH : Type} (ext : Externals SH)
    (self : qSlicerSubjectHierarchyAbstractPlugin) (w : World SH)
    (h : w.state.subjectHierarchyNode = none) :
    (∀ itemID : vtkIdType,
      (canEditProperties ext w itemID).1 = false ∧
      (canEditProperties ext w itemID).2.state = w.state) ∧
    (∀ (nodeToAdd : Option NodeRef) (parentItemID : vtkIdType),
      (addNodeToSubjectHierarchy ext self w nodeToAdd parentItemID).1 = false ∧
      (addNodeToSubjectHierarchy ext self w nodeToAdd parentItemID).2.state = w.state) ∧
    (∀ itemID parentItemID : vtkIdType,
      (reparentItemInsideSubjectHierarchy ext w itemID parentItemID).1 = false ∧
      (reparentItemInsideSubjectHierarchy ext w itemID parentItemID).2.state = w.state) ∧
    (∀ itemID : vtkIdType,
      (isThisPluginOwnerOfItem ext self w itemID).1 = false ∧
      (isThisPluginOwnerOfItem ext self w itemID).2.state = w.state) ∧
    (∀ (itemID : vtkIdType) (viewNode : Option vtkMRMLAbstractViewNode),
      (showItemInView ext w itemID viewNode).1 = false ∧
      (showItemInView ext w itemID viewNode).2.state = w.state) ∧
    (∀ itemID : vtkIdType,
      (displayedItemName ext w itemID).1 = "" ∧
      (displayedItemName ext w itemID).2.state = w.state) ∧
    (∀ itemID : vtkIdType,
      (tooltip ext w itemID).1 = "" ∧ (tooltip ext w itemID).2.state = w.state) ∧
    (∀ itemID : vtkIdType,
      (getDisplayVisibility ext w itemID).1 = 0 ∧
      (getDisplayVisibility ext w itemID).2.state = w.state) ∧
    (∀ (itemID : vtkIdType) (terminologyMetaData : QMap) (useSelectedColor : Bool),
      (colorAndTerminologyFromDisplayableNode ext w itemID terminologyMetaData
        useSelectedColor).1 = QColor.rgba 0 0 0 0 ∧
      (colorAndTerminologyFromDisplayableNode ext w itemID terminologyMetaData
        useSelectedColor).2.1 = terminologyMetaData ∧
      (colorAndTerminologyFromDisplayableNode ext w itemID terminologyMetaData
        useSelectedColor).2.2.state = w.state) := by
  refine ⟨?_, ?_, ?_, ?_, ?_, ?_, ?_, ?_, ?_⟩
  · intro itemID
    simp [canEditProperties, h, World.qCritical]
  · intro nodeToAdd parentItemID
    cases nodeToAdd <;> simp [addNodeToSubjectHierarchy, h, World.qCritical]
  · intro itemID parentItemID
    simp [reparentItemInsideSubjectHierarchy, h, World.qCritical]
  · intro itemID
    simp [isThisPluginOwnerOfItem, h, World.qCritical]
  · intro itemID viewNode
    simp [showItemInView, h, World.qCritical]
  · intro itemID
    simp [displayedItemName, h, World.qCritical]
  · intro itemID
    simp [tooltip, h, World.qCritical]
  · intro itemID
    simp [getDisplayVisibility, h, World.qCritical]
  · intro itemID terminologyMetaData useSelectedColor
    unfold colorAndTerminologyFromDisplayableNode
    split
    · exact ⟨rfl, rfl, rfl⟩
    · simp [h, World.qCritical]

/-- The defaults of C9 in the example scene without a subject hierarchy node: showing item
5 in a view is refused and the color of item 5 is transparent. -/
theorem defaults_without_subject_hierarchy_witness :
    (exampleWorld none).state.subjectHierarchyNode = none ∧
    (showItemInView exampleExternals (exampleWorld none) 5
      (some { ID := some "vtkMRMLSliceNodeRed", kind := ViewKind.slice })).1 = false ∧
    (colorAndTerminologyFromDisplayableNode exampleExternals (exampleWorld none) 5
      (fun _ => none) true).1 = QColor.rgba 0 0 0 0 :=
  ⟨rfl,
   ((defaults_without_subject_hierarchy exampleExternals { m_Name := "Models" }
      (exampleWorld none) rfl).2.2.2.2.1 5
      (some { ID := some "vtkMRMLSliceNodeRed", kind := ViewKind.slice })).1,
   ((defaults_without_subject_hierarchy exampleExternals { m_Name := "Models" }
      (exampleWorld none) rfl).2.2.2.2.2.2.2.2 5 (fun _ => none) true).1⟩

/-- C10. `addNodeToSubjectHierarchy(node, parent)` with a subject hierarchy node available:
for a non-null node the item is created, with the plugin name as owner, under the scene
item when `parent` is the invalid ID 0 and under `parent` otherwise, nothing else in the
scene state changes, and the call returns true exactly when the created item ID is not 0;
for a null node the call returns false and the scene state stays as it was. -/
theorem addNode_creates_item_under_parent {SH : Type} (ext : Externals SH)
    (self : qSlicerSubjectHierarchyAbstractPlugin) (w : World SH) (shNode : SH)
    (h : w.state.subjectHierarchyNode = some shNode) (node : NodeRef)
    (parentItemID : vtkIdType) :
    (parentItemID = 0 →
      (addNodeToSubjectHierarchy ext self w (some node) parentItemID).2.state =
        { w.state with
          subjectHierarchyNode :=
            some (ext.CreateItem shNode (ext.GetSceneItemID shNode) node self.m_Name).2 } ∧
      ((addNodeToSubjectHierarchy ext self w (some node) parentItemID).1 = true ↔
        (ext.CreateItem shNode (ext.GetSceneItemID shNode) node self.m_Name).1 ≠ 0)) ∧
    (parentItemID ≠ 0 →
      (addNodeToSubjectHierarchy ext self w (some node) parentItemID).2.state =
        { w.state with
          subjectHierarchyNode := some (ext.CreateItem shNode parentItemID node self.m_Name).2 } ∧
      ((addNodeToSubjectHierarchy ext self w (some node) parentItemID).1 = true ↔
        (ext.CreateItem shNode parentItemID node self.m_Name).1 ≠ 0)) ∧
    (addNodeToSubjectHierarchy ext self w none parentItemID).1 = false ∧
    (addNodeToSubjectHierarchy ext self w none parentItemID).2.state = w.state := by
  refine ⟨fun hp => ?_, fun hp => ?_, rfl, rfl⟩
  · simp only [addNodeToSubjectHierarchy, h, hp, if_true]
    split <;> simp_all [World.qCritical]
  · simp only [addNodeToSubjectHierarchy, h, hp, if_false]
    split <;> simp_all [World.qCritical]

/-- C10 in the example scene with an empty hierarchy: adding node 7 with parent 0 creates
item 2 under the scene item 1 and returns true, adding it under the unknown parent 9
returns false. -/
theorem addNode_creates_item_under_parent_witness :
    (exampleWorld (some [])).state.subjectHierarchyNode = some [] ∧
    (addNodeToSubjectHierarchy exampleExternals { m_Name := "Models" }
      (exampleWorld (some [])) (some 7) 0).1 = true ∧
    (addNodeToSubjectHierarchy exampleExternals { m_Name := "Models" }
      (exampleWorld (some [])) (some 7) 0).2.state.subjectHierarchyNode
      = some [(2, 1, 7, "Models")] ∧
    ¬ (addNodeToSubjectHierarchy exampleExternals { m_Name := "Models" }
      (exampleWorld (some [])) (some 7) 9).1 = true :=
  ⟨rfl,
   ((addNode_creates_item_under_parent exampleExternals { m_Name := "Models" }
      (exampleWorld (some [])) [] rfl 7 0).1 rfl).2.2 (by decide),
   congrArg SceneState.subjectHierarchyNode
     ((addNode_creates_item_under_parent exampleExternals { m_Name := "Models" }
      (exampleWorld (some [])) [] rfl 7 0).1 rfl).1,
   fun hret => ((addNode_creates_item_under_parent exampleExternals { m_Name := "Models" }
      (exampleWorld (some [])) [] rfl 7 9).2.1 (by decide)).2.1 hret (by decide)⟩

/-! ### Color and terminology of a displayable node -/

theorem QMap.set_apply (m : QMap) (key : Int) (value : QVariant) (k : Int) :
    (m.set key value) k = if k = key then some value else m k := rfl

theorem QMap.clear_apply (m : QMap) (k : Int) : m.clear k = none := rfl

theorem autoGeneratedFlag_absent {SH : Type} (ext : Externals SH) (node : vtkMRMLNode)
    (attributeName : String) (default : Bool) (h : node.Attributes attributeName = none) :
    autoGeneratedFlag ext node attributeName default = default := by
  simp [autoGeneratedFlag, h]

/-- The result of `colorAndTerminologyFromDisplayableNode` when every check passes. -/
theorem colorAndTerminology_success_eq {SH : Type} (ext : Externals SH) (w : World SH)
    (shNode : SH) (scene : vtkMRMLScene) (itemID : vtkIdType)
    (dataNode displayNodeRef : NodeRef) (terminologyMetaData : QMap) (useSelectedColor : Bool)
    (hitem : itemID ≠ ext.INVALID_ITEM_ID)
    (hsh : w.state.subjectHierarchyNode = some shNode)
    (hscene : w.state.mrmlScene = some scene)
    (himport : scene.IsImporting = false)
    (hdata : ext.GetItemDataNode shNode itemID = some dataNode)
    (hdisplayable : (w.state.nodes dataNode).IsDisplayable = true)
    (hdisplay : (w.state.nodes dataNode).DisplayNode = some displayNodeRef) :
    colorAndTerminologyFromDisplayableNode ext w itemID terminologyMetaData useSelectedColor =
      (QColor.fromRgbF
        (if useSelectedColor then (w.state.displayNodes displayNodeRef).SelectedColor
          else (w.state.displayNodes displayNodeRef).Color).1
        (if useSelectedColor then (w.state.displayNodes displayNodeRef).SelectedColor
          else (w.state.displayNodes displayNodeRef).Color).2.1
        (if useSelectedColor then (w.state.displayNodes displayNodeRef).SelectedColor
          else (w.state.displayNodes displayNodeRef).Color).2.2,
       ((((terminologyMetaData.clear.set ext.TerminologyRole
            (QVariant.ofQString (ext.GetTerminologyEntryAsString (w.state.nodes dataNode)))).set
          ext.DefaultTerminologyRole
            (QVariant.ofQString
              (ext.GetDefaultTerminologyEntryAsString (w.state.nodes dataNode)))).set
          ext.NameRole (QVariant.ofCString (w.state.nodes dataNode).Name)).set
          ext.NameAutoGeneratedRole
            (QVariant.ofBool (autoGeneratedFlag ext (w.state.nodes dataNode)
              ext.GetNameAutoGeneratedAttributeName false))).set
          ext.ColorAutoGeneratedRole
            (QVariant.ofBool (autoGeneratedFlag ext (w.state.nodes dataNode)
              ext.GetColorAutoGeneratedAttributeName true)),
       w) := by
  unfold colorAndTerminologyFromDisplayableNode
  simp only [hitem, if_false, hsh, hscene, himport, hdata, hdisplayable, hdisplay,
    Bool.not_true, Bool.false_eq_true]

/-- C11. `colorAndTerminologyFromDisplayableNode` on success (valid item, subject hierarchy
and scene available, scene not importing, displayable data node with a display node), the
five roles being distinct: whatever the map held before, afterwards it holds exactly the
roles Terminology, DefaultTerminology, Name, NameAutoGenerated and ColorAutoGenerated;
NameAutoGenerated is false when the node lacks the name-auto-generated attribute and
ColorAutoGenerated is true when it lacks the color-auto-generated attribute; the returned
color is made from the display node's selected color when `useSelectedColor` is true and
from its color otherwise. -/
theorem colorAndTerminology_on_success {SH : Type} (ext : Externals SH) (w : World SH)
    (shNode : SH) (scene : vtkMRMLScene) (itemID : vtkIdType)
    (dataNode displayNodeRef : NodeRef) (terminologyMetaData : QMap) (useSelectedColor : Bool)
    (hitem : itemID ≠ ext.INVALID_ITEM_ID)
    (hsh : w.state.subjectHierarchyNode = some shNode)
    (hscene : w.state.mrmlScene = some scene)
    (himport : scene.IsImporting = false)
    (hdata : ext.GetItemDataNode shNode itemID = some dataNode)
    (hdisplayable : (w.state.nodes dataNode).IsDisplayable = true)
    (hdisplay : (w.state.nodes dataNode).DisplayNode = some displayNodeRef)
    (hroles : [ext.TerminologyRole, ext.DefaultTerminologyRole, ext.NameRole,
      ext.NameAutoGeneratedRole, ext.ColorAutoGeneratedRole].Nodup) :
    (∀ role : Int,
      ((colorAndTerminologyFromDisplayableNode ext w itemID terminologyMetaData
        useSelectedColor).2.1 role).isSome = true ↔
      role ∈ [ext.TerminologyRole, ext.DefaultTerminologyRole, ext.NameRole,
        ext.NameAutoGeneratedRole, ext.ColorAutoGeneratedRole]) ∧
    ((w.state.nodes dataNode).Attributes ext.GetNameAutoGeneratedAttributeName = none →
      (colorAndTerminologyFromDisplayableNode ext w itemID terminologyMetaData
        useSelectedColor).2.1 ext.NameAutoGeneratedRole = some (QVariant.ofBool false)) ∧
    ((w.state.nodes dataNode).Attributes ext.GetColorAutoGeneratedAttributeName = none →
      (colorAndTerminologyFromDisplayableNode ext w itemID terminologyMetaData
        useSelectedColor).2.1 ext.ColorAutoGeneratedRole = some (QVariant.ofBool true)) ∧
    (useSelectedColor = true →
      (colorAndTerminologyFromDisplayableNode ext w itemID terminologyMetaData
        useSelectedColor).1 =
        QColor.fromRgbF (w.state.displayNodes displayNodeRef).SelectedColor.1
          (w.state.displayNodes displayNodeRef).SelectedColor.2.1
          (w.state.displayNodes displayNodeRef).SelectedColor.2.2) ∧
    (useSelectedColor = false →
      (colorAndTerminologyFromDisplayableNode ext w itemID terminologyMetaData
        useSelectedColor).1 =
        QColor.fromRgbF (w.state.displayNodes displayNodeRef).Color.1
          (w.state.displayNodes displayNodeRef).Color.2.1
          (w.state.displayNodes displayNodeRef).Color.2.2) := by
  rw [colorAndTerminology_success_eq ext w shNode scene itemID dataNode displayNodeRef
    terminologyMetaData useSelectedColor hitem hsh hscene himport hdata hdisplayable hdisplay]
  have hne : ext.NameAutoGeneratedRole ≠ ext.ColorAutoGeneratedRole := by
    intro heq
    simp [heq] at hroles
  refine ⟨fun role => ?_, fun hname => ?_, fun hcolor => ?_, fun hsel => ?_, fun hsel => ?_⟩
  · simp only [QMap.set_apply, QMap.clear_apply, List.mem_cons, List.mem_singleton,
      List.not_mem_nil, or_false]
    constructor
    · intro hsome
      by_contra hnot
      simp only [not_or] at hnot
      simp [hnot.1, hnot.2.1, hnot.2.2.1, hnot.2.2.2.1, hnot.2.2.2.2] at hsome
    · intro hmem
      split_ifs <;> simp_all
  · simp only [QMap.set_apply, if_neg hne, if_true,
      autoGeneratedFlag_absent ext _ _ false hname]
  · simp only [QMap.set_apply, if_true, autoGeneratedFlag_absent ext _ _ true hcolor]
  · simp [hsel]
  · simp [hsel]

/-- C11 in the example scene, item 2, starting from a map that holds a value under every
key: the selected color (0, 1, 0) is returned, the role 759 (NameAutoGenerated) holds false,
the role 760 (ColorAutoGenerated) holds true, the role 756 (Terminology) is present and the
key 3 is gone. -/
theorem colorAndTerminology_on_success_witness :
    ((2 : vtkIdType) ≠ exampleExternals.INVALID_ITEM_ID ∧
      exampleItemWorld.state.subjectHierarchyNode = some [(2, 1, 7, "Models")] ∧
      exampleItemWorld.state.mrmlScene = some { IsImporting := false } ∧
      exampleExternals.GetItemDataNode [(2, 1, 7, "Models")] 2 = some 7 ∧
      (exampleItemWorld.state.nodes 7).IsDisplayable = true ∧
      (exampleItemWorld.state.nodes 7).DisplayNode = some 0 ∧
      [exampleExternals.TerminologyRole, exampleExternals.DefaultTerminologyRole,
        exampleExternals.NameRole, exampleExternals.NameAutoGeneratedRole,
        exampleExternals.ColorAutoGeneratedRole].Nodup) ∧
    (colorAndTerminologyFromDisplayableNode exampleExternals exampleItemWorld 2
      (fun _ => some (QVariant.ofBool true)) true).1 = QColor.fromRgbF 0 1 0 ∧
    (colorAndTerminologyFromDisplayableNode exampleExternals exampleItemWorld 2
      (fun _ => some (QVariant.ofBool true)) true).2.1 759 = some (QVariant.ofBool false) ∧
    (colorAndTerminologyFromDisplayableNode exampleExternals exampleItemWorld 2
      (fun _ => some (QVariant.ofBool true)) true).2.1 760 = some (QVariant.ofBool true) ∧
    ((colorAndTerminologyFromDisplayableNode exampleExternals exampleItemWorld 2
      (fun _ => some (QVariant.ofBool true)) true).2.1 756).isSome = true ∧
    ¬ ((colorAndTerminologyFromDisplayableNode exampleExternals exampleItemWorld 2
      (fun _ => some (QVariant.ofBool true)) true).2.1 3).isSome = true := by
  have hitem : (2 : vtkIdType) ≠ exampleExternals.INVALID_ITEM_ID := by decide
  have hdata : exampleExternals.GetItemDataNode [(2, 1, 7, "Models")] 2 = some 7 := by decide
  have hroles : [exampleExternals.TerminologyRole, exampleExternals.DefaultTerminologyRole,
      exampleExternals.NameRole, exampleExternals.NameAutoGeneratedRole,
      exampleExternals.ColorAutoGeneratedRole].Nodup := by decide
  have h := colorAndTerminology_on_success exampleExternals exampleItemWorld
    [(2, 1, 7, "Models")] { IsImporting := false } 2 7 0
    (fun _ => some (QVariant.ofBool true)) true hitem rfl rfl rfl hdata rfl rfl hroles
  exact ⟨⟨hitem, rfl, rfl, hdata, rfl, rfl, hroles⟩, h.2.2.2.1 rfl, h.2.1 rfl, h.2.2.1 rfl,
    (h.1 756).2 (by decide), fun hsome => absurd ((h.1 3).1 hsome) (by decide)⟩

/-! ### Showing an item in a view -/

theorem showInSpecificView_hidden (d : vtkMRMLDisplayNode) (view : vtkMRMLAbstractViewNode)
    (viewID : String) (hid : view.ID = some viewID) (hvis : d.Visibility = 0) :
    (showInSpecificView d view).Visibility = 1 ∧
    (showInSpecificView d view).ViewNodeIDs = [viewID] := by
  unfold showInSpecificView
  simp only [hvis, if_true, hid, AddViewNodeID, RemoveAllViewNodeIDs, List.not_mem_nil,
    if_false, List.nil_append]
  constructor <;> split_ifs <;> rfl

theorem showInSpecificView_visible (d : vtkMRMLDisplayNode) (view : vtkMRMLAbstractViewNode)
    (viewID : String) (hid : view.ID = some viewID) (hvis : d.Visibility ≠ 0) :
    (showInSpecificView d view).Visibility = d.Visibility ∧
    (showInSpecificView d view).ViewNodeIDs =
      if viewID ∈ d.ViewNodeIDs then d.ViewNodeIDs else d.ViewNodeIDs ++ [viewID] := by
  unfold showInSpecificView
  simp only [if_neg hvis, hid, AddViewNodeID]
  constructor <;> split_ifs <;> rfl

/-- The result of `showItemInView` with a view node when every check passes and there is no
default display node left to create. -/
theorem showItemInView_specific_eq {SH : Type} (ext : Externals SH) (w : World SH)
    (shNode : SH) (itemID : vtkIdType) (dataNode displayNodeRef : NodeRef)
    (view : vtkMRMLAbstractViewNode)
    (hsh : w.state.subjectHierarchyNode = some shNode)
    (hdata : ext.GetItemDataNode shNode itemID = some dataNode)
    (hdisplayable : (w.state.nodes dataNode).IsDisplayable = true)
    (hcreate : ext.CreateDefaultDisplayNodes w.state dataNode = w.state)
    (hdisplay : (w.state.nodes dataNode).DisplayNode = some displayNodeRef)
    (hmode : (w.state.displayNodes displayNodeRef).ShowModeDefault = true) :
    showItemInView ext w itemID (some view) =
      (true, { w with
        state := w.state.setDisplayNode displayNodeRef
          (showInSpecificView (w.state.displayNodes displayNodeRef) view) }) := by
  unfold showItemInView
  simp only [hsh, hdata, hdisplayable, hcreate, hdisplay, hmode, Bool.not_true,
    Bool.false_eq_true, if_false]

/-- C12. `showItemInView` with a view node that has an ID, for an item whose displayable
data node has a display node in default show mode (so that no default display node is left
to create): the call returns true; if the display node was hidden before the call it is
visible afterwards and its list of view node IDs is exactly the ID of the view node; if it
was visible before, it stays so, every ID listed before is still listed and the ID of the
view node is listed, being put at the end when it was not listed yet. -/
theorem showItemInView_specific_view {SH : Type} (ext : Externals SH) (w : World SH)
    (shNode : SH) (itemID : vtkIdType) (dataNode displayNodeRef : NodeRef)
    (view : vtkMRMLAbstractViewNode) (viewID : String)
    (hsh : w.state.subjectHierarchyNode = some shNode)
    (hdata : ext.GetItemDataNode shNode itemID = some dataNode)
    (hdisplayable : (w.state.nodes dataNode).IsDisplayable = true)
    (hcreate : ext.CreateDefaultDisplayNodes w.state dataNode = w.state)
    (hdisplay : (w.state.nodes dataNode).DisplayNode = some displayNodeRef)
    (hmode : (w.state.displayNodes displayNodeRef).ShowModeDefault = true)
    (hid : view.ID = some viewID) :
    (showItemInView ext w itemID (some view)).1 = true ∧
    ((w.state.displayNodes displayNodeRef).Visibility = 0 →
      ((showItemInView ext w itemID (some view)).2.state.displayNodes
        displayNodeRef).Visibility = 1 ∧
      ((showItemInView ext w itemID (some view)).2.state.displayNodes
        displayNodeRef).ViewNodeIDs = [viewID]) ∧
    ((w.state.displayNodes displayNodeRef).Visibility ≠ 0 →
      ((showItemInView ext w itemID (some view)).2.state.displayNodes
        displayNodeRef).Visibility = (w.state.displayNodes displayNodeRef).Visibility ∧
      (∀ listed ∈ (w.state.displayNodes displayNodeRef).ViewNodeIDs,
        listed ∈ ((showItemInView ext w itemID (some view)).2.state.displayNodes
          displayNodeRef).ViewNodeIDs) ∧
      viewID ∈ ((showItemInView ext w itemID (some view)).2.state.displayNodes
        displayNodeRef).ViewNodeIDs ∧
      ((showItemInView ext w itemID (some view)).2.state.displayNodes
        displayNodeRef).ViewNodeIDs =
        if viewID ∈ (w.state.displayNodes displayNodeRef).ViewNodeIDs then
          (w.state.displayNodes displayNodeRef).ViewNodeIDs
        else (w.state.displayNodes displayNodeRef).ViewNodeIDs ++ [viewID]) := by
  rw [showItemInView_specific_eq ext w shNode itemID dataNode displayNodeRef view hsh hdata
    hdisplayable hcreate hdisplay hmode]
  simp only [SceneState.setDisplayNode, if_true]
  refine ⟨trivial, fun hvis => ?_, fun hvis => ?_⟩
  · exact showInSpecificView_hidden _ view viewID hid hvis
  · have hv := showInSpecificView_visible _ view viewID hid hvis
    refine ⟨hv.1, ?_, ?_, hv.2⟩
    · intro listed hlisted
      rw [hv.2]
      split_ifs
      · exact hlisted
      · exact List.mem_append_left _ hlisted
    · rw [hv.2]
      split_ifs with hmem
      · exact hmem
      · simp

/-- C12 in the example scene, item 2 shown in the slice view "vtkMRMLSliceNodeRed": with the
display node hidden and listing "vtkMRMLViewNode1" the call returns true, makes it visible
and leaves the slice view as the only listed view; with the display node visible the slice
view is listed after "vtkMRMLViewNode1". -/
theorem showItemInView_specific_view_witness :
    (exampleItemWorld.state.subjectHierarchyNode = some [(2, 1, 7, "Models")] ∧
      exampleExternals.GetItemDataNode [(2, 1, 7, "Models")] 2 = some 7 ∧
      (exampleItemWorld.state.nodes 7).IsDisplayable = true ∧
      exampleExternals.CreateDefaultDisplayNodes exampleItemWorld.state 7
        = exampleItemWorld.state ∧
      (exampleItemWorld.state.nodes 7).DisplayNode = some 0 ∧
      (exampleItemWorld.state.displayNodes 0).ShowModeDefault = true ∧
      (exampleItemWorld.state.displayNodes 0).Visibility = 0 ∧
      (exampleVisibleItemWorld.state.displayNodes 0).Visibility ≠ 0) ∧
    (showItemInView exampleExternals exampleItemWorld 2
      (some { ID := some "vtkMRMLSliceNodeRed", kind := ViewKind.slice })).1 = true ∧
    ((showItemInView exampleExternals exampleItemWorld 2
      (some { ID := some "vtkMRMLSliceNodeRed", kind := ViewKind.slice })).2.state.displayNodes
      0).Visibility = 1 ∧
    ((showItemInView exampleExternals exampleItemWorld 2
      (some { ID := some "vtkMRMLSliceNodeRed", kind := ViewKind.slice })).2.state.displayNodes
      0).ViewNodeIDs = ["vtkMRMLSliceNodeRed"] ∧
    ((showItemInView exampleExternals exampleVisibleItemWorld 2
      (some { ID := some "vtkMRMLSliceNodeRed", kind := ViewKind.slice })).2.state.displayNodes
      0).ViewNodeIDs = ["vtkMRMLViewNode1", "vtkMRMLSliceNodeRed"] := by
  have hdata : exampleExternals.GetItemDataNode [(2, 1, 7, "Models")] 2 = some 7 := by decide
  have hvisible : (exampleVisibleItemWorld.state.displayNodes 0).Visibility ≠ 0 := by decide
  have hidden := showItemInView_specific_view exampleExternals exampleItemWorld
    [(2, 1, 7, "Models")] 2 7 0 { ID := some "vtkMRMLSliceNodeRed", kind := ViewKind.slice }
    "vtkMRMLSliceNodeRed" rfl hdata rfl rfl rfl rfl rfl
  have visible := showItemInView_specific_view exampleExternals exampleVisibleItemWorld
    [(2, 1, 7, "Models")] 2 7 0 { ID := some "vtkMRMLSliceNodeRed", kind := ViewKind.slice }
    "vtkMRMLSliceNodeRed" rfl hdata rfl rfl rfl rfl rfl
  exact ⟨⟨rfl, hdata, rfl, rfl, rfl, rfl, rfl, hvisible⟩, hidden.1, (hidden.2.1 rfl).1,
    (hidden.2.1 rfl).2, ((visible.2.2 hvisible).2.2.2).trans (if_neg (by decide))⟩

end Slicer
